import Mathlib

/-!
Verification of the SharePoint & OneDrive Scanner core (SP-Sharing).

This file shallowly embeds the scanner's core logic in Lean 4:

* `config.js` — permission classification (`classifyPermission`,
  `shouldIncludePermission`, `isExternalUser`), folder skip rules
  (`shouldSkipFolder`, `isPreservationHoldLibrary`,
  `shouldSkipPreservationHoldLibrary`) and path formatting
  (`formatItemPath`).
* `api.js` — the retrying request gateway (`graphRequestWithRetry`) and the
  batch permission fetcher (`batchGetPermissions`).
* `scanning.js` — the two traversal strategies
  (`processEnhancedDeltaItems`, `traverseFolderEnhanced`), the delta-to-
  comprehensive fallback (`scanDriveWithDelta`, `scanDriveComprehensive`)
  and the per-unit orchestrator loops of `scanSharePointSites` and
  `scanOneDriveUsers`.

Modelling conventions:

* JavaScript values that may be `undefined`/`null` become `Option`;
  JS truthiness of strings (empty string is falsy) is modelled explicitly.
* Network and DOM side effects (delays, progress text, console logging)
  have no influence on the data flow and are dropped; where a claim talks
  about the number of requests or delays, the model counts them.
* Asynchronous behaviour is modelled sequentially: the scanner runs on a
  single JS thread and the properties proved here are about its data flow,
  not about interleavings.  The cooperative cancellation flag is modelled
  as a boolean that is constant for the portion of the run being analysed
  (set before that portion begins and never cleared, which is how the stop
  button behaves: the flag is only reset at the start of a new scan).
* Remote responses are supplied by explicit environment records so that
  each theorem quantifies over the possible behaviours of the remote API.
-/

namespace SPScan

/-! ## JavaScript string primitives

The scanner compares and rewrites strings with `toLowerCase`, `includes`,
`startsWith`, first-occurrence `String.replace`, the regex
`^\/drives\/[^\/]+` and the global regex `\/+`.  These are modelled over
`List Char` so that all definitions compute by kernel reduction. -/

/-- JS `String.prototype.toLowerCase` (ASCII inputs only appear here). -/
def jsLower (s : String) : String :=
  ⟨s.data.map Char.toLower⟩

/-- Substring containment over char lists (JS `String.prototype.includes`). -/
def containsSub (s pat : List Char) : Bool :=
  match s with
  | [] => pat = []
  | _ :: rest => pat.isPrefixOf s || containsSub rest pat

/-- JS `s.includes(pat)`. -/
def jsIncludes (s pat : String) : Bool :=
  containsSub s.data pat.data

/-- JS `s.startsWith(pat)`. -/
def jsStartsWith (s pat : String) : Bool :=
  pat.data.isPrefixOf s.data

/-- Split a char list at every occurrence of character `c`
(JS `String.prototype.split` with a one-character separator). -/
def splitOnChar (c : Char) : List Char → List (List Char)
  | [] => [[]]
  | x :: rest =>
    let r := splitOnChar c rest
    if x = c then [] :: r
    else
      match r with
      | [] => [[x]]
      | h :: t => (x :: h) :: t

/-- First-occurrence replacement (JS `String.prototype.replace` with a
string pattern replaces only the first occurrence). -/
def replaceFirstL (s pat repl : List Char) : List Char :=
  if pat.isPrefixOf s then repl ++ s.drop pat.length
  else
    match s with
    | [] => []
    | c :: rest => c :: replaceFirstL rest pat repl

/-- JS `s.replace(pat, repl)` for a string pattern. -/
def replaceFirst (s pat repl : String) : String :=
  ⟨replaceFirstL s.data pat.data repl.data⟩

/-- JS `s.replace(/^\/drives\/[^\/]+/, '')`: strip a leading
`/drives/<segment>` where the segment is nonempty and slash-free. -/
def stripDrivesLead (s : String) : String :=
  let pre := "/drives/".data
  if pre.isPrefixOf s.data then
    let rest := s.data.drop pre.length
    let seg := rest.takeWhile (fun c => !(c = '/'))
    if seg = [] then s else ⟨rest.drop seg.length⟩
  else s

/-- JS `s.replace(/\/+/g, '/')`: collapse every run of slashes to one. -/
def collapseSlashesL : List Char → List Char
  | [] => []
  | [c] => [c]
  | c₁ :: c₂ :: rest =>
    if c₁ = '/' && c₂ = '/' then collapseSlashesL (c₂ :: rest)
    else c₁ :: collapseSlashesL (c₂ :: rest)

/-- Collapse repeated slashes in a string. -/
def collapseSlashes (s : String) : String :=
  ⟨collapseSlashesL s.data⟩

/-- JS truthiness of an optional string: `undefined`, `null` and the empty
string are falsy. -/
def strTruthy : Option String → Bool
  | none => false
  | some s => !(s = "")

/-- JS `a || b` on an optional string: keep `a` when it is truthy,
otherwise use the fallback. -/
def strOr (a : Option String) (b : String) : String :=
  match a with
  | some s => if s = "" then b else s
  | none => b

/-! ## Permission data model (the raw Graph grant shape used by config.js) -/

/-- `permission.link` (sharing link facet): only the `scope` field is read
by the classifier. -/
structure LinkInfo where
  scope : Option String
deriving DecidableEq, Repr

/-- A user reference (`...user`): only `email` drives classification. -/
structure UserInfo where
  email : Option String
deriving DecidableEq, Repr

/-- A group or site-group reference; the display name is only used for
reporting, never for classification. -/
structure GroupInfo where
  displayName : Option String
deriving DecidableEq, Repr

/-- One entry of `grantedToIdentitiesV2`. -/
structure IdentityV2 where
  user : Option UserInfo
  group : Option GroupInfo
deriving DecidableEq, Repr

/-- `permission.grantedToV2`. -/
structure GrantedToV2 where
  group : Option GroupInfo
  siteGroup : Option GroupInfo
deriving DecidableEq, Repr

/-- `permission.grantedTo`. -/
structure GrantedTo where
  user : Option UserInfo
deriving DecidableEq, Repr

/-- A raw permission (grant) as read by `classifyPermission` and
`shouldIncludePermission` in config.js. -/
structure Permission where
  link : Option LinkInfo
  grantedTo : Option GrantedTo
  grantedToV2 : Option GrantedToV2
  grantedToIdentitiesV2 : Option (List IdentityV2)
deriving DecidableEq, Repr

/-- A permission with no facets at all (helper for building test grants). -/
def emptyPermission : Permission :=
  ⟨none, none, none, none⟩

/-! ## config.js — classification -/

/-- `email.toLowerCase().split('@')[1]` with JS truthiness: the result is
`none` when the email has no `@` or the segment after the first `@` is
empty. -/
def emailDomainOf (e : String) : Option String :=
  match splitOnChar '@' (jsLower e).data with
  | _ :: d :: _ => if d = [] then none else some ⟨d⟩
  | _ => none

/-- config.js `isExternalUser(email, tenantDomains)`. -/
def isExternalUser (email : Option String) (tenantDomains : List String) : Bool :=
  match email with
  | none => false
  | some e =>
    if e = "" then false
    else
      match emailDomainOf e with
      | none => false
      | some d => !(tenantDomains.any (fun dom => jsLower dom = d))

/-- Does `permission.link` exist with exactly the given scope string? -/
def linkScopeIs (p : Permission) (s : String) : Bool :=
  match p.link with
  | some l => l.scope = some s
  | none => false

/-- `permission.grantedToV2 && permission.grantedToV2.group` truthiness. -/
def hasV2Group (p : Permission) : Bool :=
  match p.grantedToV2 with
  | some v => v.group.isSome
  | none => false

/-- `permission.grantedToV2 && permission.grantedToV2.siteGroup`
truthiness. -/
def hasV2SiteGroup (p : Permission) : Bool :=
  match p.grantedToV2 with
  | some v => v.siteGroup.isSome
  | none => false

/-- One internal/external vote for an email that was already checked to be
truthy.  The pair is `(isExternal, isInternal)`. -/
def voteEmail (email : Option String) (tenantDomains : List String)
    (acc : Bool × Bool) : Bool × Bool :=
  if isExternalUser email tenantDomains then (true, acc.2) else (acc.1, true)

/-- The `grantedTo.user.email` vote of `classifyPermission`. -/
def grantedToVote (p : Permission) (tenantDomains : List String)
    (acc : Bool × Bool) : Bool × Bool :=
  match p.grantedTo with
  | some g =>
    match g.user with
    | some u => if strTruthy u.email then voteEmail u.email tenantDomains acc else acc
    | none => acc
  | none => acc

/-- The `grantedToIdentitiesV2` loop of `classifyPermission`: each entry
with a truthy user email votes; an entry with no (usable) user but a group
marks internal. -/
def identitiesVote (p : Permission) (tenantDomains : List String)
    (acc : Bool × Bool) : Bool × Bool :=
  match p.grantedToIdentitiesV2 with
  | none => acc
  | some gs =>
    gs.foldl
      (fun a g =>
        match g.user with
        | some u =>
          if strTruthy u.email then voteEmail u.email tenantDomains a
          else match g.group with
            | some _ => (a.1, true)
            | none => a
        | none =>
          match g.group with
          | some _ => (a.1, true)
          | none => a)
      acc

/-- config.js `classifyPermission(permission, tenantDomains)`: anonymous
links are external, organization links internal, `grantedToV2.group`
grants internal; otherwise internal/external votes are collected from
`grantedTo` and `grantedToIdentitiesV2` and aggregated. -/
def classifyPermission (p : Permission) (tenantDomains : List String) : String :=
  if linkScopeIs p "anonymous" then "external"
  else if linkScopeIs p "organization" then "internal"
  else if hasV2Group p then "internal"
  else
    let v := identitiesVote p tenantDomains (grantedToVote p tenantDomains (false, false))
    if v.1 && !v.2 then "external"
    else if v.2 && !v.1 then "internal"
    else if v.1 && v.2 then "mixed"
    else "unknown"

/-- config.js `shouldIncludePermission(permission, tenantDomains,
sharingFilter)`: bare direct-to-user grants are excluded first; the rest
are filtered by the classification against the sharing filter. -/
def shouldIncludePermission (p : Permission) (tenantDomains : List String)
    (sharingFilter : String) : Bool :=
  let hasRegularGroup := hasV2Group p
  let hasSiteGroup := hasV2SiteGroup p
  let hasGroupPermission := hasRegularGroup || hasSiteGroup
  let isDirectUserGrant :=
    (match p.grantedTo with
     | some g => g.user.isSome
     | none => false) && p.link.isNone && !hasGroupPermission
  if isDirectUserGrant then false
  else
    let classification := classifyPermission p tenantDomains
    if sharingFilter = "external" then
      classification = "external" || classification = "mixed"
    else if sharingFilter = "internal" then
      classification = "internal" || classification = "mixed"
    else if sharingFilter = "all" then true
    else classification = "external" || classification = "mixed"

/-! ## api.js — graphRequestWithRetry

The retry loop of `graphRequestWithRetry(url, options, maxRetries)` is
embedded as a function of an environment that gives, for each attempt
number, the HTTP response obtained by that attempt.  The pre-loop
proactive token refresh happens before any attempt and is outside the
retry policy, so it is not part of this model.

The forced token refresh performed on a 401 response
(`authModule.refreshTokenIfNeeded(true)`) is code of the repository's
auth module that the scanner only calls; its outcome is modelled from the
spec as a success flag per response ("Token provider: `forceRefresh() ->
token` (throws `AuthExpired` on failure)"). -/

/-- The observable shape of one attempt's HTTP response, plus whether the
forced token refresh would succeed were it triggered by this response.
`retryAfterHeader` only influences wait times and is carried for fidelity
to the `Retry-After` handling of 429/503. -/
structure AttemptResp where
  status : Nat
  retryAfterHeader : Option Nat
  bodyNotSupported : Bool
  bodyMysiteNotFound : Bool
  refreshOk : Bool
deriving DecidableEq, Repr

/-- Errors `graphRequestWithRetry` can surface. -/
inductive GatewayError where
  /-- a plain `HTTP <status>` error thrown for a non-ok response -/
  | httpError (status : Nat)
  /-- an error with `isNonRetryable` set (501 not-supported, 404
  not-provisioned) -/
  | nonRetryable (status : Nat)
  /-- an error with `isAuthenticationError` set (401 whose forced token
  refresh failed) -/
  | authExpired
deriving DecidableEq, Repr

/-- The outcome of a `graphRequestWithRetry` run: the result (the index of
the successful attempt, or the surfaced error), the number of fetch
attempts made, and the number of forced token refreshes performed. -/
structure GatewayRun where
  outcome : Except GatewayError Nat
  attempts : Nat
  refreshes : Nat
deriving Repr

/-- Which branch of the status-code cascade an attempt's response takes,
in the source's order of checks. -/
inductive RespKind where
  | throttled
  | notSupported
  | auth (refreshOk : Bool)
  | notProvisioned
  | success
  | generic
deriving DecidableEq, Repr

/-- `response.ok`: status in the 2xx range. -/
def isOkStatus (s : Nat) : Bool :=
  200 ≤ s && s < 300

/-- Classify a response following the cascade of checks in
`graphRequestWithRetry` (429/503, then 501 with the not-supported marker,
then 401, then 404 with the not-provisioned marker, then `response.ok`,
else the generic `HTTP <status>` throw). -/
def classifyResp (r : AttemptResp) : RespKind :=
  if r.status = 429 || r.status = 503 then .throttled
  else if r.status = 501 && r.bodyNotSupported then .notSupported
  else if r.status = 401 then .auth r.refreshOk
  else if r.status = 404 && r.bodyMysiteNotFound then .notProvisioned
  else if isOkStatus r.status then .success
  else .generic

/-- Prepend one attempt (and possibly one refresh) to a run. -/
def stepRun (extraRefresh : Nat) (rest : GatewayRun) : GatewayRun :=
  ⟨rest.outcome, rest.attempts + 1, rest.refreshes + extraRefresh⟩

/-- The retry loop of `graphRequestWithRetry`.  `budget` is the remaining
retry budget (`maxRetries - attempt`); a branch may only `continue` when
the budget is positive, matching `attempt < maxRetries` in the source.
When the budget is exhausted, throttled / refreshed-401 / generic
responses fall through to the `HTTP <status>` throw, which the final
`catch` re-throws. -/
def graphLoop (env : Nat → AttemptResp) : Nat → Nat → GatewayRun
  | attempt, 0 =>
    let r := env attempt
    match classifyResp r with
    | .throttled => ⟨.error (.httpError r.status), 1, 0⟩
    | .notSupported => ⟨.error (.nonRetryable 501), 1, 0⟩
    | .auth true => ⟨.error (.httpError 401), 1, 1⟩
    | .auth false => ⟨.error .authExpired, 1, 1⟩
    | .notProvisioned => ⟨.error (.nonRetryable 404), 1, 0⟩
    | .success => ⟨.ok attempt, 1, 0⟩
    | .generic => ⟨.error (.httpError r.status), 1, 0⟩
  | attempt, b + 1 =>
    let r := env attempt
    match classifyResp r with
    | .throttled => stepRun 0 (graphLoop env (attempt + 1) b)
    | .notSupported => ⟨.error (.nonRetryable 501), 1, 0⟩
    | .auth true => stepRun 1 (graphLoop env (attempt + 1) b)
    | .auth false => ⟨.error .authExpired, 1, 1⟩
    | .notProvisioned => ⟨.error (.nonRetryable 404), 1, 0⟩
    | .success => ⟨.ok attempt, 1, 0⟩
    | .generic => stepRun 0 (graphLoop env (attempt + 1) b)

/-- `graphRequestWithRetry` with the given `maxRetries` (default 3 at the
call sites): run the loop from attempt 0 with the full retry budget. -/
def graphRequestWithRetry (env : Nat → AttemptResp) (maxRetries : Nat) : GatewayRun :=
  graphLoop env 0 maxRetries

/-! ## config.js — folder skip rules and path formatting -/

/-- config.js `SKIP_FOLDERS`. -/
def SKIP_FOLDERS : List String :=
  ["Forms", "SiteAssets", "_catalogs", "Style Library", "SitePages",
   "Lists", "PublishingImages", "SiteCollectionImages", "MasterPageGallery",
   "_themes", "_layouts", "_vti_", "wpresources", "ClientSideAssets"]

/-- config.js `PRESERVATION_HOLD_PATTERNS`. -/
def PRESERVATION_HOLD_PATTERNS : List String :=
  ["Preservation Hold Library", "Preservation Hold", "Hold Library",
   "PreservationHoldLibrary", "Legal Hold", "Compliance Hold",
   "eDiscovery Hold"]

/-- config.js `shouldSkipFolder(folderName)`. -/
def shouldSkipFolder (folderName : Option String) : Bool :=
  if !(strTruthy folderName) then true
  else
    let n := folderName.getD ""
    if jsStartsWith n "_" || jsStartsWith n "." then true
    else SKIP_FOLDERS.any (fun skip => jsIncludes (jsLower n) (jsLower skip))

/-- config.js `isPreservationHoldLibrary(libraryName)`. -/
def isPreservationHoldLibrary (libraryName : Option String) : Bool :=
  if !(strTruthy libraryName) then false
  else
    let n := libraryName.getD ""
    PRESERVATION_HOLD_PATTERNS.any (fun pat => jsIncludes (jsLower n) (jsLower pat))

/-- config.js `shouldSkipPreservationHoldLibrary(libraryName)`.  The
`exclude-preservation-holds` checkbox state is passed explicitly as
`excludeHolds` (`shouldExcludePreservationHolds()` reads it from the DOM). -/
def shouldSkipPreservationHoldLibrary (excludeHolds : Bool)
    (libraryName : Option String) : Bool :=
  if !excludeHolds then false
  else isPreservationHoldLibrary libraryName

/-- config.js `formatItemPath(parentPath, itemName, driveName, scanType)`:
strip `/drive/root:` and a leading `/drives/<id>` from the parent path,
re-prefix with the drive display name for SharePoint, then collapse
slashes and force a leading slash. -/
def formatItemPath (parentPath : Option String) (itemName : String)
    (driveName : Option String) (scanType : String) : String :=
  let itemPath :=
    if scanType = "onedrive" then
      if strTruthy parentPath then
        let cleanPath := stripDrivesLead
          (replaceFirst (parentPath.getD "") "/drive/root:" "")
        if !(cleanPath = "") then cleanPath ++ "/" ++ itemName
        else "/" ++ itemName
      else "/" ++ itemName
    else
      let drivePrefix := strOr driveName "Documents"
      if strTruthy parentPath then
        let cleanPath := stripDrivesLead
          (replaceFirst (parentPath.getD "") "/drive/root:" "")
        if !(cleanPath = "") && !(cleanPath = "/") then
          "/" ++ drivePrefix ++ cleanPath ++ "/" ++ itemName
        else "/" ++ drivePrefix ++ "/" ++ itemName
      else "/" ++ drivePrefix ++ "/" ++ itemName
  let collapsed := collapseSlashes itemPath
  if jsStartsWith collapsed "/" then collapsed else "/" ++ collapsed

/-! ## api.js — batchGetPermissions

`batchGetPermissions(requests, controller)` walks the request list in
groups of 15.  For each group it issues one `$batch` call; each
sub-response is mapped back to its item by `parseInt(response.id) - i` and
degraded to an empty permission list unless it is a 200 with a `value`
body.  If the batch call throws, each item of the group falls back to one
individual paginated request, itself degraded to an empty permission list
on failure.  The cancellation flag is polled before each group and before
each fallback request. -/

/-- A drive item as the scanner sees it (`id`, `name`, `folder`/`file`
facet truthiness, `parentReference.path`). -/
structure DriveItem where
  id : String
  name : String
  folder : Bool
  file : Bool
  parentPath : Option String
deriving DecidableEq, Repr

/-- One request handed to `batchGetPermissions` (built in
`traverseFolderEnhanced`). -/
structure BatchReq where
  item : DriveItem
  itemPath : String
  url : String
deriving DecidableEq, Repr

/-- One sub-response of the `$batch` endpoint: its `id`, HTTP `status`,
and `body.value` when present (`none` covers both a missing body and a
body without `value`). -/
structure SubResp where
  id : Nat
  status : Nat
  bodyValue : Option (List Permission)
deriving DecidableEq, Repr

/-- One `{item, permissions}` entry of the fetcher's result list. -/
structure PermEntry where
  item : DriveItem
  permissions : List Permission
deriving DecidableEq, Repr

/-- The environment of one `batchGetPermissions` call: the outcome of the
`$batch` call for the group starting at request index `i`, and the outcome
of the individual fallback request for a given permissions URL. -/
structure PermEnv where
  batchOutcome : Nat → Except Unit (List SubResp)
  individual : String → Except Unit (List Permission)

/-- Result of `batchGetPermissions` plus the request counts the claims
talk about: `groups` is the number of `$batch` calls issued and
`fallbackCalls` the number of individual fallback requests issued. -/
structure BatchStats where
  entries : List PermEntry
  groups : Nat
  fallbackCalls : Nat
deriving DecidableEq, Repr

/-- The `for (const response of batchResult.responses)` loop: map each
sub-response back to `batch[parseInt(response.id) - i]` and push an entry
(empty permissions unless status 200 with a `value` body).  An id that
maps outside the group would make the JS loop throw on
`batch[itemIndex].item`; the boolean records that, with the entries pushed
before the bad response kept (they were already appended). -/
def processBatchResponses (batch : List BatchReq) (i : Nat) :
    List SubResp → List PermEntry × Bool
  | [] => ([], false)
  | r :: rs =>
    let idx : Int := (r.id : Int) - (i : Int)
    if h : 0 ≤ idx ∧ idx.toNat < batch.length then
      let req := batch.get ⟨idx.toNat, h.2⟩
      let entry : PermEntry :=
        if r.status = 200 then
          match r.bodyValue with
          | some ps => ⟨req.item, ps⟩
          | none => ⟨req.item, []⟩
        else ⟨req.item, []⟩
      let rest := processBatchResponses batch i rs
      (entry :: rest.1, rest.2)
    else ([], true)

/-- The individual-request fallback loop over one group: one paginated
permissions request per item, degraded to an empty list on failure; the
stop flag is polled before each item.  Returns the entries and the number
of fallback requests issued. -/
def fallbackLoop (env : PermEnv) (stop : Bool) :
    List BatchReq → List PermEntry × Nat
  | [] => ([], 0)
  | req :: rest =>
    if stop then ([], 0)
    else
      let entry : PermEntry :=
        match env.individual req.url with
        | .ok ps => ⟨req.item, ps⟩
        | .error _ => ⟨req.item, []⟩
      let r := fallbackLoop env stop rest
      (entry :: r.1, r.2 + 1)

/-- The group loop of `batchGetPermissions`: slice off 15 requests, try
the `$batch` call (falling back to individual requests if it throws or if
mapping a sub-response back to the group throws), then continue with the
remaining requests.  The first argument is fuel bounding the number of
groups; `batchGetPermissions` passes the request count, which always
suffices because every group consumes at least one request, so the
fuel-exhausted case is unreachable from there. -/
def batchLoop (env : PermEnv) (stop : Bool) :
    Nat → List BatchReq → Nat → BatchStats
  | _, [], _ => ⟨[], 0, 0⟩
  | 0, _ :: _, _ => ⟨[], 0, 0⟩
  | fuel + 1, q :: qs, i =>
    if stop then ⟨[], 0, 0⟩
    else
      let batch := (q :: qs).take 15
      let group :=
        match env.batchOutcome i with
        | .ok resps =>
          let pr := processBatchResponses batch i resps
          if pr.2 then
            let fb := fallbackLoop env stop batch
            (pr.1 ++ fb.1, fb.2)
          else (pr.1, 0)
        | .error _ => fallbackLoop env stop batch
      let rest := batchLoop env stop fuel ((q :: qs).drop 15) (i + 15)
      ⟨group.1 ++ rest.entries, rest.groups + 1, group.2 + rest.fallbackCalls⟩

/-- api.js `batchGetPermissions(requests, controller)`. -/
def batchGetPermissions (env : PermEnv) (requests : List BatchReq)
    (stop : Bool) : BatchStats :=
  batchLoop env stop requests.length requests 0

/-! ## scanning.js — the traversal engine

Strategy B (`traverseFolderEnhanced`) and Strategy A
(`processEnhancedDeltaItems`) are embedded as pure functions of an
environment describing the drive's contents.  Asynchrony is modelled
sequentially (the recursion batches of 3 are awaited in task order), and
the recursion depth is bounded by an explicit fuel argument — every
theorem below either holds for all fuel values or evaluates a concrete
drive whose depth the fuel covers. -/

/-- The site context of a scan (`site.name`, `site.webUrl`). -/
structure SiteRef where
  name : String
  webUrl : String
deriving DecidableEq, Repr

/-- The drive context of a scan; `name` is optional
(`drive.name || 'Documents'` fallbacks appear throughout). -/
structure DriveRef where
  id : String
  name : Option String
deriving DecidableEq, Repr

/-- The configuration a traversal runs under: scan context, the scan
settings (`sharingFilter`, `contentScope`), the preservation-hold
checkbox, the tenant domain set, and the cooperative stop flag (constant
for the portion of the run being analysed). -/
structure ScanCfg where
  site : SiteRef
  drive : DriveRef
  scanType : String
  sharingFilter : String
  contentScope : String
  excludeHolds : Bool
  tenantDomains : List String
  stop : Bool

/-- One emitted ScanResult, with the fields `traverseFolderEnhanced` and
`processEnhancedDeltaItems` store. -/
structure ScanResult where
  siteName : String
  siteUrl : String
  driveId : String
  itemId : String
  itemName : String
  itemPath : String
  itemType : String
  permissions : List Permission
  allPermissions : List Permission
  scanType : String
  driveName : String
deriving DecidableEq, Repr

/-- The remote drive as Strategy B sees it: the children of each item id
(files and folders; the folders-only variant of `getFolderChildren` is the
server-side filter of this list), and the batch-permission environment for
the `batchGetPermissions` call made while processing each folder. -/
structure ScanEnv where
  children : String → List DriveItem
  permEnv : String → PermEnv

/-- What a Strategy B run produced: the ScanResults appended to the
results list in order, the number of `$batch` permission groups fetched,
and the number of recursive folder descents started. -/
structure TraverseStats where
  emitted : List ScanResult
  batches : Nat
  descents : Nat
deriving DecidableEq, Repr

/-- The permissions URL built for each item in `traverseFolderEnhanced`. -/
def permissionsUrl (driveId itemId : String) : String :=
  "https://graph.microsoft.com/v1.0/drives/" ++ driveId ++ "/items/" ++
    itemId ++ "/permissions"

/-- The child filter of `traverseFolderEnhanced`: drop folders that are
preservation-hold libraries or system folders, then apply the content
scope (folders only, or files and folders). -/
def validChildFilter (cfg : ScanCfg) (f : DriveItem) : Bool :=
  if f.folder && shouldSkipPreservationHoldLibrary cfg.excludeHolds (some f.name) then
    false
  else if f.folder && shouldSkipFolder (some f.name) then false
  else if cfg.contentScope = "folders" then f.folder
  else f.file || f.folder

/-- Build the ScanResult pushed by `traverseFolderEnhanced` for one item
whose filtered permission list `interesting` is nonempty. -/
def mkTraverseResult (cfg : ScanCfg) (e : PermEntry)
    (interesting : List Permission) : ScanResult :=
  ⟨if cfg.scanType = "onedrive" then "OneDrive" else cfg.site.name,
   cfg.site.webUrl,
   cfg.drive.id,
   e.item.id,
   e.item.name,
   formatItemPath e.item.parentPath e.item.name cfg.drive.name cfg.scanType,
   if e.item.folder then "folder" else "file",
   interesting,
   e.permissions,
   cfg.scanType,
   strOr cfg.drive.name
     (if cfg.scanType = "onedrive" then "OneDrive" else "Documents")⟩

/-- The `for (const result of permissionResults)` loop of
`traverseFolderEnhanced`: emit a ScanResult for every entry with a
nonempty filtered permission list, and queue every folder — matched or not
— for recursive descent. -/
def processPermissionResults (cfg : ScanCfg) :
    List PermEntry → List ScanResult × List DriveItem
  | [] => ([], [])
  | e :: rest =>
    if cfg.stop then ([], [])
    else
      let interesting := e.permissions.filter
        (fun p => shouldIncludePermission p cfg.tenantDomains cfg.sharingFilter)
      let r := processPermissionResults cfg rest
      (if interesting.isEmpty then r.1 else mkTraverseResult cfg e interesting :: r.1,
       if e.item.folder then e.item :: r.2 else r.2)

/-- scanning.js `traverseFolderEnhanced(site, drive, itemId, ...)`.
The fuel argument bounds the recursion depth; the recursion batches of 3
(`Promise.all` over `recursionTasks`) are modelled as sequential execution
in task order. -/
def traverseFolderEnhanced (env : ScanEnv) (cfg : ScanCfg) :
    Nat → String → TraverseStats
  | 0, _ => ⟨[], 0, 0⟩
  | fuel + 1, itemId =>
    if cfg.stop then ⟨[], 0, 0⟩
    else
      let includeFiles := cfg.contentScope = "all"
      let children :=
        if includeFiles then env.children itemId
        else (env.children itemId).filter (fun f => f.folder)
      let validItems := children.filter (validChildFilter cfg)
      if validItems.isEmpty then ⟨[], 0, 0⟩
      else
        let itemsToCheck : List BatchReq := validItems.map
          (fun f =>
            ⟨f, formatItemPath f.parentPath f.name cfg.drive.name cfg.scanType,
             permissionsUrl cfg.drive.id f.id⟩)
        if itemsToCheck.isEmpty then ⟨[], 0, 0⟩
        else
          let bres := batchGetPermissions (env.permEnv itemId) itemsToCheck cfg.stop
          let processed := processPermissionResults cfg bres.entries
          let recStats : TraverseStats := processed.2.foldl
            (fun (acc : TraverseStats) f =>
              let s := traverseFolderEnhanced env cfg fuel f.id
              ⟨acc.emitted ++ s.emitted, acc.batches + s.batches,
               acc.descents + 1 + s.descents⟩)
            (⟨[], 0, 0⟩ : TraverseStats)
          ⟨processed.1 ++ recStats.emitted, bres.groups + recStats.batches,
           recStats.descents⟩

/-- scanning.js `scanDriveComprehensive(site, drive, ...)`: run the
enhanced traversal from the drive root (its own try/catch only logs). -/
def scanDriveComprehensive (env : ScanEnv) (cfg : ScanCfg) (fuel : Nat) :
    TraverseStats :=
  traverseFolderEnhanced env cfg fuel "root"

/-! ## scanning.js — Strategy A (delta item processing) -/

/-- One item of the delta feed (`$expand=permissions` inlines the
permission list; a missing `permissions` array behaves like an empty
one). -/
structure DeltaItem where
  id : String
  name : String
  folder : Bool
  parentPath : Option String
  permissions : List Permission
deriving DecidableEq, Repr

/-- The display path computed inline in `processEnhancedDeltaItems`
(lines 444–472 of scanning.js): the same stripping / re-prefixing /
slash-collapsing steps as `formatItemPath`, written out at the call
site. -/
def deltaItemPath (scanType : String) (driveName : Option String)
    (it : DeltaItem) : String :=
  let itemPath :=
    if scanType = "onedrive" then
      if strTruthy it.parentPath then
        let pp := stripDrivesLead
          (replaceFirst (it.parentPath.getD "") "/drive/root:" "")
        if !(pp = "") then pp ++ "/" ++ it.name else "/" ++ it.name
      else "/" ++ it.name
    else
      let dn := strOr driveName "Documents"
      if strTruthy it.parentPath then
        let pp := stripDrivesLead
          (replaceFirst (it.parentPath.getD "") "/drive/root:" "")
        if !(pp = "") && !(pp = "/") then "/" ++ dn ++ pp ++ "/" ++ it.name
        else "/" ++ dn ++ "/" ++ it.name
      else "/" ++ dn ++ "/" ++ it.name
  let collapsed := collapseSlashes itemPath
  if jsStartsWith collapsed "/" then collapsed else "/" ++ collapsed

/-- The ScanResult pushed by `processEnhancedDeltaItems` for one delta
item with a nonempty filtered permission list. -/
def mkDeltaResult (cfg : ScanCfg) (it : DeltaItem)
    (interesting : List Permission) : ScanResult :=
  ⟨if cfg.scanType = "onedrive" then "OneDrive" else cfg.site.name,
   cfg.site.webUrl,
   cfg.drive.id,
   it.id,
   it.name,
   deltaItemPath cfg.scanType cfg.drive.name it,
   if it.folder then "folder" else "file",
   interesting,
   it.permissions,
   cfg.scanType,
   strOr cfg.drive.name
     (if cfg.scanType = "onedrive" then "OneDrive" else "Documents")⟩

/-- scanning.js `processEnhancedDeltaItems(site, drive, items, scanType)`:
walk the flat delta item list; skip folders matching the preservation-hold
patterns, items outside the content scope and items with no permissions;
emit a ScanResult for every remaining item whose filtered permission list
is nonempty.  Note the hold check fires only on folder items — it never
consults an item's ancestors. -/
def processEnhancedDeltaItems (cfg : ScanCfg) : List DeltaItem → List ScanResult
  | [] => []
  | it :: rest =>
    if cfg.stop then []
    else if it.folder &&
        shouldSkipPreservationHoldLibrary cfg.excludeHolds (some it.name) then
      processEnhancedDeltaItems cfg rest
    else if cfg.contentScope = "folders" && !it.folder then
      processEnhancedDeltaItems cfg rest
    else if it.permissions.isEmpty then processEnhancedDeltaItems cfg rest
    else
      let interesting := it.permissions.filter
        (fun p => shouldIncludePermission p cfg.tenantDomains cfg.sharingFilter)
      if interesting.isEmpty then processEnhancedDeltaItems cfg rest
      else mkDeltaResult cfg it interesting :: processEnhancedDeltaItems cfg rest

/-! ## scanning.js — the delta-to-comprehensive fallback -/

/-- The functions `scanDriveWithDelta` reads off `window.apiModule`.  The
export object of api.js defines `delay`, `graphRequestWithRetry`,
`graphGetAll`, `batchGetPermissions`, `loadTenantDomains`,
`discoverSharePointSites`, `discoverOneDriveUsers`, `getSiteDrives`,
`getUserOneDrive`, `performDeltaQuery` and `getFolderChildren` — there is
no `performOptimizedSharedItemsQuery` anywhere in the repository, so that
member is `none`. -/
structure ApiModule where
  performOptimizedSharedItemsQuery : Option (String → List DeltaItem)

/-- `window.apiModule` as exported at the bottom of api.js. -/
def apiModule : ApiModule := ⟨none⟩

/-- scanning.js `scanDriveWithDelta(site, drive, ...)`: try the fast delta
path (`apiModule.performOptimizedSharedItemsQuery` followed by
`processEnhancedDeltaItems`); any exception — including the `TypeError`
raised because that member is undefined — is caught, a 300 ms cooldown
delay runs, and `scanDriveComprehensive` takes over.  The second component
records the cooldown delay performed (0 on the delta path). -/
def scanDriveWithDelta (env : ScanEnv) (cfg : ScanCfg) (fuel : Nat) :
    TraverseStats × Nat :=
  match apiModule.performOptimizedSharedItemsQuery with
  | some q => (⟨processEnhancedDeltaItems cfg (q cfg.drive.id), 0, 0⟩, 0)
  | none => (scanDriveComprehensive env cfg fuel, 300)

/-- The behaviour the claim describes for `scanDriveWithDelta`: a fixed
300 ms cooldown delay followed by the recursive comprehensive walk. -/
def scanDriveWithDeltaSpec (env : ScanEnv) (cfg : ScanCfg) (fuel : Nat) :
    TraverseStats × Nat :=
  (scanDriveComprehensive env cfg fuel, 300)

/-! ## scanning.js — the per-unit orchestrator loops

The per-unit bodies (drive discovery plus per-drive scans for a site;
OneDrive resolution plus drive scan for a user) are abstracted into an
environment function giving each unit's outcome, because the claims are
about the catch behaviour at the per-unit boundary, not about the bodies. -/

/-- What one per-unit failure looks like to the orchestrator: whether
`error.message` contains `'Authentication token expired'` (the marker the
OneDrive loop re-throws on). -/
structure UnitError where
  authTokenExpiredMsg : Bool
deriving DecidableEq, Repr

/-- The `for (const site of selectedSites)` loop of
`scanSharePointSites`: each site's processing runs inside
`try { ... } catch (e) { console.warn(...) }` — every error, of every
kind, is swallowed and the loop proceeds to the next site.  Returns the
results accumulated and the error (if any) that escaped the loop. -/
def spSiteLoop (proc : Nat → Except UnitError (List ScanResult))
    (stop : Bool) : List Nat → List ScanResult × Option UnitError
  | [] => ([], none)
  | u :: rest =>
    if stop then ([], none)
    else
      match proc u with
      | .ok rs =>
        let r := spSiteLoop proc stop rest
        (rs ++ r.1, r.2)
      | .error _ => spSiteLoop proc stop rest

/-- The `for (const user of selectedUsers)` loop of `scanOneDriveUsers`:
every third user a token validation runs when the auth module provides it
(a failure throws an authentication-expired error outside the per-user
try); the per-user catch re-throws exactly the errors whose message
contains `'Authentication token expired'` and skips every other
failure. -/
def odUserLoop (tokenCheckAvailable : Bool) (tokenOk : Nat → Bool)
    (proc : Nat → Except UnitError (List ScanResult)) (stop : Bool) :
    List Nat → Nat → List ScanResult × Option UnitError
  | [], _ => ([], none)
  | u :: rest, idx =>
    if stop then ([], none)
    else
      let i := idx + 1
      if tokenCheckAvailable && i % 3 = 0 && !(tokenOk i) then ([], some ⟨true⟩)
      else
        match proc u with
        | .ok rs =>
          let r := odUserLoop tokenCheckAvailable tokenOk proc stop rest i
          (rs ++ r.1, r.2)
        | .error e =>
          if e.authTokenExpiredMsg then ([], some e)
          else odUserLoop tokenCheckAvailable tokenOk proc stop rest i

/-! ## Concrete instances used by the theorems below -/

/-- An anonymous-scope sharing link grant. -/
def anonPerm : Permission := ⟨some ⟨some "anonymous"⟩, none, none, none⟩

/-- An organization-scope sharing link grant. -/
def orgPerm : Permission := ⟨some ⟨some "organization"⟩, none, none, none⟩

/-- A grant whose only principal is a site group
(`grantedToV2.siteGroup`), as returned for SharePoint site-group
sharing. -/
def siteGroupPerm : Permission :=
  ⟨none, none, some ⟨none, some ⟨some "Team Site Members"⟩⟩, none⟩

/-- A bare direct-to-user grant: only `grantedTo.user`, no link, no
group. -/
def directUserPerm (email : String) : Permission :=
  ⟨none, some ⟨some ⟨some email⟩⟩, none, none⟩

/-- A grant whose principals are exactly two direct users listed in
`grantedToIdentitiesV2`. -/
def twoUserPerm (e₁ e₂ : String) : Permission :=
  ⟨none, none, none, some [⟨some ⟨some e₁⟩, none⟩, ⟨some ⟨some e₂⟩, none⟩]⟩

/-- The tenant domain set used by the concrete runs. -/
def tdContoso : List String := ["contoso.com"]

/-- The end-to-end scenario of the spec: the container root holds a
`Legal Hold Library` folder and a `Reports` folder. -/
def holdFolder : DriveItem :=
  ⟨"hold", "Legal Hold Library", true, false, some "/drive/root:"⟩

/-- The `Reports` folder of the scenario. -/
def reportsFolder : DriveItem :=
  ⟨"reports", "Reports", true, false, some "/drive/root:"⟩

/-- The file inside the hold library, carrying an anonymous link. -/
def secretFile : DriveItem :=
  ⟨"secret", "secret.docx", false, true, some "/drive/root:/Legal Hold Library"⟩

/-- The file inside `Reports`, carrying an organization link. -/
def q3File : DriveItem :=
  ⟨"q3", "Q3.docx", false, true, some "/drive/root:/Reports"⟩

/-- Children listing of the scenario drive. -/
def scenarioChildren (itemId : String) : List DriveItem :=
  if itemId = "root" then [holdFolder, reportsFolder]
  else if itemId = "hold" then [secretFile]
  else if itemId = "reports" then [q3File]
  else []

/-- Batch-permission environment of the scenario drive: the `$batch` call
succeeds, answering the empty list for the `Reports` folder itself and the
organization link for `Q3.docx`. -/
def scenarioPermEnv (folderId : String) : PermEnv :=
  if folderId = "root" then
    ⟨fun i => if i = 0 then .ok [⟨0, 200, some []⟩] else .error (),
     fun _ => .error ()⟩
  else if folderId = "reports" then
    ⟨fun i => if i = 0 then .ok [⟨0, 200, some [orgPerm]⟩] else .error (),
     fun _ => .error ()⟩
  else ⟨fun _ => .error (), fun _ => .error ()⟩

/-- The scenario drive environment. -/
def scenarioEnv : ScanEnv := ⟨scenarioChildren, scenarioPermEnv⟩

/-- The scenario configuration: SharePoint scan, filter `all`, scope
`all`, preservation-hold exclusion enabled, not cancelled. -/
def scenarioCfg : ScanCfg :=
  ⟨⟨"HR Site", "https://sp/site"⟩, ⟨"d1", some "Documents"⟩, "sharepoint",
   "all", "all", true, tdContoso, false⟩

/-- The same scenario as the flat item list a delta feed would return:
the hold folder, the file inside it, the `Reports` folder and the file
inside `Reports`. -/
def scenarioDeltaItems : List DeltaItem :=
  [⟨"hold", "Legal Hold Library", true, some "/drive/root:", []⟩,
   ⟨"secret", "secret.docx", false, some "/drive/root:/Legal Hold Library", [anonPerm]⟩,
   ⟨"reports", "Reports", true, some "/drive/root:", []⟩,
   ⟨"q3", "Q3.docx", false, some "/drive/root:/Reports", [orgPerm]⟩]

/-- The single ScanResult Strategy B emits on the scenario. -/
def q3Result : ScanResult :=
  ⟨"HR Site", "https://sp/site", "d1", "q3", "Q3.docx",
   "/Documents/Reports/Q3.docx", "file", [orgPerm], [orgPerm],
   "sharepoint", "Documents"⟩

/-- The extra ScanResult Strategy A emits on the scenario: the file from
inside the hold library, reported because the delta hold check only looks
at folder items. -/
def secretResult : ScanResult :=
  ⟨"HR Site", "https://sp/site", "d1", "secret", "secret.docx",
   "/Documents/Legal Hold Library/secret.docx", "file", [anonPerm],
   [anonPerm], "sharepoint", "Documents"⟩

/-- A gateway environment answering HTTP 503 with no `Retry-After` header
on every attempt. -/
def all503Env : Nat → AttemptResp := fun _ => ⟨503, none, false, false, true⟩

/-- A gateway environment answering HTTP 401 on every attempt, with the
forced token refresh failing. -/
def auth401FailEnv : Nat → AttemptResp := fun _ => ⟨401, none, false, false, false⟩

/-- A gateway environment answering HTTP 401 once with a successful
refresh, then HTTP 200. -/
def auth401ThenOkEnv : Nat → AttemptResp := fun n =>
  if n = 0 then ⟨401, none, false, false, true⟩ else ⟨200, none, false, false, true⟩

/-- A gateway environment answering HTTP 501 with the
`Permission is not supported` body marker. -/
def notSupported501Env : Nat → AttemptResp := fun _ => ⟨501, none, true, false, true⟩

/-- The result entry produced by the individual fallback request. -/
def fallbackEntry (env : PermEnv) (r : BatchReq) : PermEntry :=
  match env.individual r.url with
  | .ok ps => ⟨r.item, ps⟩
  | .error _ => ⟨r.item, []⟩

/-- A small batch request for a file item. -/
def smallReq (n : String) : BatchReq :=
  ⟨⟨n, n, false, true, none⟩, "/" ++ n, "url-" ++ n⟩

/-- A batch environment whose `$batch` call always fails and whose
individual requests succeed only for `url-a`. -/
def failingBatchEnv : PermEnv :=
  ⟨fun _ => .error (),
   fun u => if u = "url-a" then .ok [orgPerm] else .error ()⟩

/-- A per-unit outcome function for the orchestrator loops: unit 0 fails
with an authentication-expired error, every other unit succeeds and
contributes one result. -/
def procAuthAtZero : Nat → Except UnitError (List ScanResult) :=
  fun u => if u = 0 then .error ⟨true⟩ else .ok [q3Result]

/-! ## Helper lemmas -/

set_option maxRecDepth 8000

/-- With cancellation not requested, the individual fallback loop issues
exactly one request per item and returns one entry per item in order. -/
theorem fallbackLoop_no_stop (env : PermEnv) :
    ∀ l : List BatchReq, fallbackLoop env false l = (l.map (fallbackEntry env), l.length) := by
  intro l
  induction l with
  | nil => rfl
  | cons q qs ih => simp [fallbackLoop, fallbackEntry, ih]

/-- When every attempt's response is a 503, the retry loop consumes its
whole budget and surfaces the `HTTP 503` failure after `budget + 1`
fetches and no token refreshes. -/
theorem graphLoop_all503 (env : Nat → AttemptResp)
    (h : ∀ i, (env i).status = 503) :
    ∀ budget attempt,
      graphLoop env attempt budget = ⟨.error (.httpError 503), budget + 1, 0⟩ := by
  intro budget
  induction budget with
  | zero =>
    intro attempt
    have hc : classifyResp (env attempt) = .throttled := by simp [classifyResp, h attempt]
    simp [graphLoop, hc, h attempt]
  | succ b ih =>
    intro attempt
    have hc : classifyResp (env attempt) = .throttled := by simp [classifyResp, h attempt]
    simp [graphLoop, hc, ih (attempt + 1), stepRun]

/-- The retry loop never makes more than `budget + 1` fetch attempts,
whatever the responses are. -/
theorem graphLoop_attempts_le (env : Nat → AttemptResp) :
    ∀ budget attempt, (graphLoop env attempt budget).attempts ≤ budget + 1 := by
  intro budget
  induction budget with
  | zero =>
    intro attempt
    cases hc : classifyResp (env attempt) with
    | auth ok => cases ok <;> simp [graphLoop, hc]
    | _ => simp [graphLoop, hc]
  | succ b ih =>
    intro attempt
    cases hc : classifyResp (env attempt) with
    | throttled =>
      have := ih (attempt + 1)
      simp [graphLoop, hc, stepRun]; omega
    | auth ok =>
      cases ok
      · simp [graphLoop, hc]
      · have := ih (attempt + 1)
        simp [graphLoop, hc, stepRun]; omega
    | generic =>
      have := ih (attempt + 1)
      simp [graphLoop, hc, stepRun]; omega
    | _ => simp [graphLoop, hc]

/-! ## Claim theorems -/

/-- C1, counterexample: a grant carrying only a `grantedToV2.siteGroup`
principal does **not** classify as `internal` — `classifyPermission` only
checks `grantedToV2.group`, so the site-group grant falls through every
check and classifies `unknown`, and under filterMode `internal` it is
excluded, contradicting the claim. -/
theorem C1_counterexample :
    classifyPermission siteGroupPerm tdContoso = "unknown" ∧
    shouldIncludePermission siteGroupPerm tdContoso "internal" = false :=
  ⟨rfl, rfl⟩

/-- C1, amended: a grant with a `grantedToV2.group` principal (and no
anonymous link, which is checked first) classifies `internal` with no
further checks; a grant carrying only a `grantedToV2.siteGroup` principal
instead classifies `unknown`, is excluded by `shouldIncludePermission`
under filterMode `internal`, and is included only under filterMode
`all`. -/
theorem C1_group_internal_siteGroup_unknown :
    (∀ (p : Permission) (td : List String),
      hasV2Group p = true → linkScopeIs p "anonymous" = false →
      classifyPermission p td = "internal") ∧
    (∀ (td : List String) (sg : GroupInfo),
      classifyPermission ⟨none, none, some ⟨none, some sg⟩, none⟩ td = "unknown" ∧
      shouldIncludePermission ⟨none, none, some ⟨none, some sg⟩, none⟩ td "internal" = false ∧
      shouldIncludePermission ⟨none, none, some ⟨none, some sg⟩, none⟩ td "all" = true) := by
  constructor
  · intro p td hg ha
    cases ho : linkScopeIs p "organization" <;>
      simp [classifyPermission, hg, ha, ho]
  · intro td sg
    exact ⟨rfl, rfl, rfl⟩

/-- C1, witness: a concrete `grantedToV2.group` grant classifies
`internal` via the amended theorem. -/
theorem C1_witness :
    classifyPermission (⟨none, none, some ⟨some ⟨some "HR"⟩, none⟩, none⟩ : Permission)
      tdContoso = "internal" :=
  C1_group_internal_siteGroup_unknown.1 _ tdContoso rfl rfl

/-- C2: the API module exports no `performOptimizedSharedItemsQuery`, so
the fast delta path of `scanDriveWithDelta` is unreachable: for every
drive environment the function equals the 300 ms cooldown followed by
`scanDriveComprehensive` (the recursive comprehensive walk). -/
theorem C2_delta_unreachable :
    apiModule.performOptimizedSharedItemsQuery = none ∧
    ∀ (env : ScanEnv) (cfg : ScanCfg) (fuel : Nat),
      scanDriveWithDelta env cfg fuel = scanDriveWithDeltaSpec env cfg fuel :=
  ⟨rfl, fun _ _ _ => rfl⟩

/-- C3, counterexample: on the hold-library scenario Strategy A
(`processEnhancedDeltaItems`) emits **two** ScanResults, one of them the
file inside `Legal Hold Library` — not "exactly one ScanResult and zero
results from the hold library under either strategy" as claimed: the
delta hold check fires only on folder items, so files inside a hold
library leak through. -/
theorem C3_counterexample :
    (processEnhancedDeltaItems scenarioCfg scenarioDeltaItems).length = 2 ∧
    (processEnhancedDeltaItems scenarioCfg scenarioDeltaItems).map (fun r => r.itemPath) =
      ["/Documents/Legal Hold Library/secret.docx", "/Documents/Reports/Q3.docx"] :=
  ⟨by decide, by decide⟩

/-- C3, amended: on the scenario (hold library containing an
anonymous-link file, `Reports` containing an organization-link file,
exclusion enabled, filterMode `all`), Strategy B emits exactly one
ScanResult — the `Reports` file, whose permission classifies `internal` —
and nothing from the hold library, while Strategy A emits two ScanResults
including the hold-library file (whose permission classifies `external`):
the two strategies do not apply the preservation-hold exclusion
identically. -/
theorem C3_scenario_per_strategy :
    traverseFolderEnhanced scenarioEnv scenarioCfg 5 "root" = ⟨[q3Result], 2, 1⟩ ∧
    processEnhancedDeltaItems scenarioCfg scenarioDeltaItems = [secretResult, q3Result] ∧
    classifyPermission orgPerm tdContoso = "internal" ∧
    classifyPermission anonPerm tdContoso = "external" :=
  ⟨by decide, by decide, rfl, rfl⟩

/-- C4: handling one HTTP 401 response performs exactly one forced token
refresh and starts at most one retry (exactly one when retry budget
remains, none when it is exhausted); if the refresh fails, the call fails
immediately with the authentication-expired error after a single attempt,
for every remaining retry budget — the auth error is never retried. -/
theorem C4_auth_retry_policy (env : Nat → AttemptResp) (attempt budget : Nat)
    (h401 : (env attempt).status = 401) :
    ((env attempt).refreshOk = false →
      graphLoop env attempt budget = ⟨.error .authExpired, 1, 1⟩) ∧
    ((env attempt).refreshOk = true →
      (∀ b, budget = b + 1 →
        graphLoop env attempt budget = stepRun 1 (graphLoop env (attempt + 1) b)) ∧
      (budget = 0 → graphLoop env attempt budget = ⟨.error (.httpError 401), 1, 1⟩)) := by
  have hc : classifyResp (env attempt) = .auth (env attempt).refreshOk := by
    simp [classifyResp, h401]
  refine ⟨fun hrf => ?_, fun hrf => ⟨fun b hb => ?_, fun hb => ?_⟩⟩
  · rw [hrf] at hc
    cases budget <;> simp [graphLoop, hc]
  · rw [hrf] at hc
    subst hb
    simp [graphLoop, hc]
  · rw [hrf] at hc
    subst hb
    simp [graphLoop, hc]

/-- C4, witness: a 401 whose refresh fails surfaces `authExpired` after 1
attempt and 1 refresh despite a full retry budget; a 401 whose refresh
succeeds adds exactly one refresh and one further attempt. -/
theorem C4_witness :
    graphLoop auth401FailEnv 0 3 = ⟨.error .authExpired, 1, 1⟩ ∧
    graphLoop auth401ThenOkEnv 0 3 = stepRun 1 (graphLoop auth401ThenOkEnv 1 2) :=
  ⟨(C4_auth_retry_policy auth401FailEnv 0 3 rfl).1 rfl,
   ((C4_auth_retry_policy auth401ThenOkEnv 0 3 rfl).2 rfl).1 2 rfl⟩

/-- C5: a gateway call whose every attempt receives HTTP 503 with no
`Retry-After` header makes exactly `maxRetries + 1 = 4` attempts (default
`maxRetries = 3`) and surfaces the failure; no run ever exceeds
`budget + 1` attempts; and the non-retryable failures (501 with the
not-supported marker, 404 with the not-provisioned marker) short-circuit
after exactly one attempt regardless of remaining budget. -/
theorem C5_retry_bound :
    (∀ env : Nat → AttemptResp,
      (∀ i, (env i).status = 503 ∧ (env i).retryAfterHeader = none) →
      graphRequestWithRetry env 3 = ⟨.error (.httpError 503), 3 + 1, 0⟩) ∧
    (∀ (env : Nat → AttemptResp) (attempt budget : Nat),
      (graphLoop env attempt budget).attempts ≤ budget + 1) ∧
    (∀ (env : Nat → AttemptResp) (attempt budget : Nat),
      (env attempt).status = 501 → (env attempt).bodyNotSupported = true →
      graphLoop env attempt budget = ⟨.error (.nonRetryable 501), 1, 0⟩) ∧
    (∀ (env : Nat → AttemptResp) (attempt budget : Nat),
      (env attempt).status = 404 → (env attempt).bodyMysiteNotFound = true →
      graphLoop env attempt budget = ⟨.error (.nonRetryable 404), 1, 0⟩) := by
  refine ⟨fun env h => ?_,
          fun env attempt budget => graphLoop_attempts_le env budget attempt,
          fun env attempt budget h1 h2 => ?_, fun env attempt budget h1 h2 => ?_⟩
  · exact graphLoop_all503 env (fun i => (h i).1) 3 0
  · have hc : classifyResp (env attempt) = .notSupported := by simp [classifyResp, h1, h2]
    cases budget <;> simp [graphLoop, hc]
  · have hc : classifyResp (env attempt) = .notProvisioned := by simp [classifyResp, h1, h2]
    cases budget <;> simp [graphLoop, hc]

/-- C5, witness: the all-503 environment yields 4 attempts then failure;
the 501 not-supported environment yields exactly 1 attempt. -/
theorem C5_witness :
    graphRequestWithRetry all503Env 3 = ⟨.error (.httpError 503), 4, 0⟩ ∧
    graphLoop notSupported501Env 0 3 = ⟨.error (.nonRetryable 501), 1, 0⟩ :=
  ⟨C5_retry_bound.1 all503Env (fun _ => ⟨rfl, rfl⟩),
   C5_retry_bound.2.2.1 notSupported501Env 0 3 rfl rfl⟩

/-- C6: a grant with only `grantedTo.user` set — no link, no
`grantedToV2` group or site group — is excluded by
`shouldIncludePermission` under every filterMode whatsoever. -/
theorem C6_direct_user_grants_never_included (p : Permission) (g : GrantedTo)
    (td : List String) (sharingFilter : String)
    (hgt : p.grantedTo = some g) (hu : g.user.isSome = true)
    (hlink : p.link = none)
    (hng : hasV2Group p = false) (hnsg : hasV2SiteGroup p = false) :
    shouldIncludePermission p td sharingFilter = false := by
  simp [shouldIncludePermission, hgt, hu, hlink, hng, hnsg]

/-- C6, witness: a concrete bare direct-to-user grant is excluded even
under filterMode `all`. -/
theorem C6_witness :
    shouldIncludePermission (directUserPerm "a@contoso.com") tdContoso "all" = false :=
  C6_direct_user_grants_never_included _ _ _ _ rfl rfl rfl rfl rfl

/-- C7: a grant whose principals are two direct users in
`grantedToIdentitiesV2`, exactly one of whose email domains matches a
tenant domain case-insensitively, classifies `mixed` and is included
under both the `internal` and the `external` filter modes — in either
order of the two principals. -/
theorem C7_mixed_inclusion (td : List String) (e₁ e₂ d₁ d₂ : String)
    (h₁ : e₁ ≠ "") (h₂ : e₂ ≠ "")
    (hd₁ : emailDomainOf e₁ = some d₁)
    (hm₁ : td.any (fun dom => jsLower dom = d₁) = true)
    (hd₂ : emailDomainOf e₂ = some d₂)
    (hm₂ : td.any (fun dom => jsLower dom = d₂) = false) :
    (classifyPermission (twoUserPerm e₁ e₂) td = "mixed" ∧
      shouldIncludePermission (twoUserPerm e₁ e₂) td "internal" = true ∧
      shouldIncludePermission (twoUserPerm e₁ e₂) td "external" = true) ∧
    (classifyPermission (twoUserPerm e₂ e₁) td = "mixed" ∧
      shouldIncludePermission (twoUserPerm e₂ e₁) td "internal" = true ∧
      shouldIncludePermission (twoUserPerm e₂ e₁) td "external" = true) := by
  have hext₁ : isExternalUser (some e₁) td = false := by
    simp [isExternalUser, h₁, hd₁, hm₁]
  have hext₂ : isExternalUser (some e₂) td = true := by
    simp [isExternalUser, h₂, hd₂, hm₂]
  have hc₁ : classifyPermission (twoUserPerm e₁ e₂) td = "mixed" := by
    simp [classifyPermission, twoUserPerm, linkScopeIs, hasV2Group,
          grantedToVote, identitiesVote, voteEmail, strTruthy, h₁, h₂, hext₁, hext₂]
  have hc₂ : classifyPermission (twoUserPerm e₂ e₁) td = "mixed" := by
    simp [classifyPermission, twoUserPerm, linkScopeIs, hasV2Group,
          grantedToVote, identitiesVote, voteEmail, strTruthy, h₁, h₂, hext₁, hext₂]
  have hc₁' := hc₁
  have hc₂' := hc₂
  simp only [twoUserPerm] at hc₁' hc₂'
  refine ⟨⟨hc₁, ?_, ?_⟩, ⟨hc₂, ?_, ?_⟩⟩ <;>
    simp [shouldIncludePermission, twoUserPerm, hasV2Group, hasV2SiteGroup, hc₁', hc₂']

/-- C7, witness: one tenant-domain principal (`alice@CONTOSO.com` against
tenant domain `contoso.com`) and one external principal
(`bob@evil.org`). -/
theorem C7_witness :
    classifyPermission (twoUserPerm "alice@CONTOSO.com" "bob@evil.org") tdContoso = "mixed" ∧
    shouldIncludePermission (twoUserPerm "alice@CONTOSO.com" "bob@evil.org") tdContoso "internal" = true ∧
    shouldIncludePermission (twoUserPerm "alice@CONTOSO.com" "bob@evil.org") tdContoso "external" = true :=
  (C7_mixed_inclusion tdContoso "alice@CONTOSO.com" "bob@evil.org" "contoso.com" "evil.org"
    (by decide) (by decide) (by decide) (by decide) (by decide) (by decide)).1

/-- C8: when the `$batch` call fails outright for a single group of `N`
items (`0 < N ≤ 15`) and cancellation is not requested,
`batchGetPermissions` issues exactly `N` individual fallback requests and
returns exactly `N` entries, one per item in request order, each carrying
the individual result or the empty permission list if that request also
failed. -/
theorem C8_batch_fallback (env : PermEnv) (reqs : List BatchReq)
    (hlen : reqs.length ≤ 15) (hpos : 0 < reqs.length)
    (hfail : env.batchOutcome 0 = .error ()) :
    batchGetPermissions env reqs false =
      ⟨reqs.map (fallbackEntry env), 1, reqs.length⟩ := by
  cases reqs with
  | nil => simp at hpos
  | cons q qs =>
    have htake : (q :: qs).take 15 = q :: qs := List.take_of_length_le hlen
    have hdrop : (q :: qs).drop 15 = [] := List.drop_eq_nil_of_le hlen
    simp [batchGetPermissions, batchLoop, hfail, htake, hdrop, fallbackLoop_no_stop]

/-- C8, witness: a failing batch over two items yields two entries in
order — the first from its successful individual request, the second with
the empty permission list after its individual request also failed — and
exactly two fallback calls. -/
theorem C8_witness :
    batchGetPermissions failingBatchEnv [smallReq "a", smallReq "b"] false =
      ⟨[⟨(smallReq "a").item, [orgPerm]⟩, ⟨(smallReq "b").item, []⟩], 1, 2⟩ :=
  C8_batch_fallback failingBatchEnv [smallReq "a", smallReq "b"]
    (by decide) (by decide) rfl

/-- C9: once the ScanController stop flag is set before a Strategy B
folder's batch fetch begins, the traversal fetches no permission batches,
starts no recursive descents and emits nothing; `batchGetPermissions`
itself fetches zero groups under the stop flag; and the results list
accumulated so far is left exactly as it was. -/
theorem C9_stop_halts_strategyB :
    (∀ (env : ScanEnv) (site : SiteRef) (drive : DriveRef)
       (scanType sharingFilter contentScope : String) (excludeHolds : Bool)
       (td : List String) (fuel : Nat) (itemId : String),
      traverseFolderEnhanced env
        ⟨site, drive, scanType, sharingFilter, contentScope, excludeHolds, td, true⟩
        fuel itemId = ⟨[], 0, 0⟩) ∧
    (∀ (env : PermEnv) (reqs : List BatchReq),
      batchGetPermissions env reqs true = ⟨[], 0, 0⟩) ∧
    (∀ (env : ScanEnv) (site : SiteRef) (drive : DriveRef)
       (scanType sharingFilter contentScope : String) (excludeHolds : Bool)
       (td : List String) (fuel : Nat) (itemId : String)
       (resultsBefore : List ScanResult),
      resultsBefore ++
        (traverseFolderEnhanced env
          ⟨site, drive, scanType, sharingFilter, contentScope, excludeHolds, td, true⟩
          fuel itemId).emitted = resultsBefore) := by
  refine ⟨fun env site drive st sf cs eh td fuel itemId => ?_,
          fun env reqs => ?_,
          fun env site drive st sf cs eh td fuel itemId rb => ?_⟩
  · cases fuel <;> rfl
  · cases reqs <;> rfl
  · cases fuel <;> simp [traverseFolderEnhanced]

/-- C10, counterexample: in the SharePoint per-site loop an
authentication-expired failure at site 0 is swallowed by the per-site
catch — the loop continues, processes site 1, and no error escapes —
contradicting the claim that the auth error is re-thrown and aborts the
scan in both orchestrators. -/
theorem C10_counterexample :
    procAuthAtZero 0 = .error ⟨true⟩ ∧
    spSiteLoop procAuthAtZero false [0, 1] = ([q3Result], none) :=
  ⟨rfl, by decide⟩

/-- C10, amended: in the OneDrive user loop, a per-unit failure whose
message carries the authentication-expired marker aborts the scan
immediately while any other per-unit failure is skipped; in the
SharePoint site loop, every per-unit failure — the authentication-expired
one included — is swallowed and the loop always proceeds to the next
site, never propagating an error. -/
theorem C10_auth_abort_per_scan :
    (∀ (tokAvail : Bool) (tok : Nat → Bool)
       (proc : Nat → Except UnitError (List ScanResult))
       (u : Nat) (rest : List Nat) (idx : Nat) (e : UnitError),
      (tokAvail && decide ((idx + 1) % 3 = 0) && !(tok (idx + 1))) = false →
      proc u = .error e →
      (e.authTokenExpiredMsg = true →
        odUserLoop tokAvail tok proc false (u :: rest) idx = ([], some e)) ∧
      (e.authTokenExpiredMsg = false →
        odUserLoop tokAvail tok proc false (u :: rest) idx =
          odUserLoop tokAvail tok proc false rest (idx + 1))) ∧
    (∀ (proc : Nat → Except UnitError (List ScanResult)) (stop : Bool)
       (units : List Nat), (spSiteLoop proc stop units).2 = none) ∧
    (∀ (proc : Nat → Except UnitError (List ScanResult)) (u : Nat)
       (rest : List Nat) (e : UnitError), proc u = .error e →
      spSiteLoop proc false (u :: rest) = spSiteLoop proc false rest) := by
  refine ⟨fun tokAvail tok proc u rest idx e htok hproc => ⟨fun he => ?_, fun he => ?_⟩,
          fun proc stop units => ?_, fun proc u rest e hproc => ?_⟩
  · simp [odUserLoop, htok, hproc, he]
  · simp [odUserLoop, htok, hproc, he]
  · induction units with
    | nil => rfl
    | cons u rest ih =>
      cases hs : stop
      · rw [hs] at ih
        cases hp : proc u <;> simp [spSiteLoop, hp, ih]
      · simp [spSiteLoop]
  · simp [spSiteLoop, hproc]

/-- C10, witness: the OneDrive loop aborts on the authentication-expired
failure of its first unit, processing nothing further. -/
theorem C10_witness :
    odUserLoop true (fun _ => true) procAuthAtZero false [0, 1] 0 = ([], some ⟨true⟩) :=
  ((C10_auth_abort_per_scan.1 true (fun _ => true) procAuthAtZero 0 [1] 0 ⟨true⟩
    (by decide) rfl).1) rfl

end SPScan
